import Mathlib

/-!
Verification of the tap-tilroy pagination-and-flattening pipeline.

The Python source (src/tap_tilroy/client.py and src/tap_tilroy/streams.py)
is shallowly embedded below: JSON values become the inductive `JVal`,
Python dicts become insertion-ordered association lists (`PyDict`), dict
mutation becomes the pure operations `setKey`/`delKey`, and code that can
raise becomes `Except PyErr`.
-/

/-- A JSON value as handled by the tap: strings, numbers, booleans, null,
arrays and objects.  Objects are insertion-ordered association lists, the
model of a Python `dict`. -/
inductive JVal where
  | str : String → JVal
  | num : Int → JVal
  | bool : Bool → JVal
  | null : JVal
  | arr : List JVal → JVal
  | obj : List (String × JVal) → JVal

/-- The model of a Python `dict` with `JVal` values: an insertion-ordered
association list. -/
abbrev PyDict := List (String × JVal)

/-- `v.isObj` holds exactly when `v` is a JSON object (a Python `dict`). -/
def JVal.isObj : JVal → Bool
  | .obj _ => true
  | _ => false

/-- Test whether a key is present, the model of Python `key in row` for a
dict `row`. -/
def hasKey (row : PyDict) (k : String) : Bool :=
  row.any (fun p => p.1 == k)

/-- Read a key, the model of Python `row[key]` at guarded call sites (all
uses in the source are guarded by an `in` test, so the default is never
observed). -/
def getKey (row : PyDict) (k : String) : JVal :=
  ((row.find? (fun p => p.1 == k)).map Prod.snd).getD JVal.null

/-- Assign a key, the model of Python `row[key] = v`: an existing binding
keeps its position and gets the new value, a new key is appended. -/
def setKey (row : PyDict) (k : String) (v : JVal) : PyDict :=
  if row.any (fun p => p.1 == k) then
    row.map (fun p => if p.1 == k then (k, v) else p)
  else
    row ++ [(k, v)]

/-- Remove a key, the model of Python `del row[key]`. -/
def delKey (row : PyDict) (k : String) : PyDict :=
  row.filter (fun p => !(p.1 == k))

/-- The model of Python `dict(items)`: insert the pairs left to right, so a
duplicated key keeps its first position and its last value. -/
def pyDict (items : List (String × JVal)) : PyDict :=
  items.foldl (fun d p => setKey d p.1 p.2) []

/-- Compound key construction from `TilroyStream.flatten_record`
(client.py line 54): `new_key = f"{parent_key}{sep}{key}" if parent_key
else key`. -/
def newKey (parentKey sep key : String) : String :=
  if parentKey = "" then key else parentKey ++ sep ++ key

/-- The item loop of `TilroyStream.flatten_record` (client.py lines 52-63):
a dict value is flattened recursively (and, as in the source, passed
through `dict(...)` at each level), while arrays and scalars are kept
as-is under the compound key. -/
def flattenItems : PyDict → String → String → List (String × JVal)
  | [], _, _ => []
  | (key, value) :: rest, parentKey, sep =>
    (match value with
     | JVal.obj o => pyDict (flattenItems o (newKey parentKey sep key) sep)
     | _ => [(newKey parentKey sep key, value)]) ++ flattenItems rest parentKey sep

/-- `TilroyStream.flatten_record` (client.py lines 41-64): flatten a nested
dictionary by concatenating nested keys with a separator, returning
`dict(items)`. -/
def flatten_record (record : PyDict) (parentKey sep : String) : PyDict :=
  pyDict (flattenItems record parentKey sep)

/-- Modelled from the spec: the compound-named leaf bindings of a nested
record — every non-object value of the record, paired with the dotted
path `parent.child` at which it sits.  Used to compare `flatten_record`
against the spec's description of its output. -/
def specLeafBindings : PyDict → String → String → List (String × JVal)
  | [], _, _ => []
  | (key, value) :: rest, parentKey, sep =>
    (match value with
     | JVal.obj o => specLeafBindings o (newKey parentKey sep key) sep
     | _ => [(newKey parentKey sep key, value)]) ++ specLeafBindings rest parentKey sep

/-- `TilroyStream.post_process` (client.py lines 66-76): the base stream's
post-processing just applies the generic flattener. -/
def TilroyStream.post_process (row : PyDict) : PyDict :=
  flatten_record row "" "."

/-- The page-size constant `TilroyStream.default_count` (client.py
line 35). -/
def TilroyStream.default_count : Nat := 100

/-- The URL built by `TilroyStream.request_records` (client.py line 104):
`f"{self.url_base}{self.path}?count={self.default_count}&page={page}"`. -/
def requestUrl (urlBase path : String) (count page : Nat) : String :=
  urlBase ++ path ++ "?count=" ++ toString count ++ "&page=" ++ toString page

/-- The pagination loop of `TilroyStream.request_records` (client.py lines
102-127) run against a mocked server, `pages` being the record lists the
server returns for page 1, 2, 3, ….  The result is the sequence of
yielded records together with the list of URLs requested: an empty page
stops the loop before yielding, a page shorter than `count` stops it
after yielding, otherwise the loop moves to the next page. -/
def request_records_from {α : Type} (urlBase path : String) (count : Nat) :
    List (List α) → Nat → List α × List String
  | [], _ => ([], [])
  | p :: rest, page =>
    let u := requestUrl urlBase path count page
    if p.length = 0 then ([], [u])
    else if p.length < count then (p, [u])
    else
      let r := request_records_from urlBase path count rest (page + 1)
      (p ++ r.1, u :: r.2)

/-- `TilroyStream.request_records` (client.py lines 93-137) starts its loop
at `page = 1`. -/
def request_records {α : Type} (urlBase path : String) (count : Nat)
    (pages : List (List α)) : List α × List String :=
  request_records_from urlBase path count pages 1

/-- An error raised by the embedded Python code. -/
inductive PyErr where
  | attributeError : PyErr
  | typeError : PyErr
  | keyError : PyErr

/-- Python `value.get(field, default)`: only dicts have `.get`; any other
value raises `AttributeError`.  Calls with no explicit default pass
`JVal.null` (Python `None`). -/
def pyGet (v : JVal) (field : String) (dflt : JVal) : Except PyErr JVal :=
  match v with
  | JVal.obj o => .ok (((o.find? (fun p => p.1 == field)).map Prod.snd).getD dflt)
  | _ => .error .attributeError

/-- Python `value[field]` with a string subscript: dict lookup (KeyError
when absent); every other value raises `TypeError`. -/
def pyIndex (v : JVal) (field : String) : Except PyErr JVal :=
  match v with
  | JVal.obj o =>
    match o.find? (fun p => p.1 == field) with
    | some p => .ok p.2
    | none => .error .keyError
  | _ => .error .typeError

/-- Whether the character list `pat` occurs at the start of `s`. -/
def leadMatch : List Char → List Char → Bool
  | [], _ => true
  | _ :: _, [] => false
  | a :: as, b :: bs => a == b && leadMatch as bs

/-- Whether the character list `pat` occurs contiguously inside `s`. -/
def subMatch (pat : List Char) : List Char → Bool
  | [] => pat.isEmpty
  | c :: rest => leadMatch pat (c :: rest) || subMatch pat rest

/-- Python `field in value`: key test on dicts, substring test on strings,
element test on lists; `in` on numbers, booleans or `None` raises
`TypeError`. -/
def pyContains (v : JVal) (field : String) : Except PyErr Bool :=
  match v with
  | JVal.obj o => .ok (o.any (fun p => p.1 == field))
  | JVal.str s => .ok (subMatch field.toList s.toList)
  | JVal.arr a => .ok (a.any (fun x => match x with | JVal.str s => s == field | _ => false))
  | _ => .error .typeError

/-- The repeated block of the adapters' `post_process` methods
(streams.py, e.g. lines 29-33): `if src in row: v = row[src];
row[tgt_i] = v.get(field_i); ...; del row[src]`, with one
`(target, field, default)` triple per extracted field. -/
def flattenStep (src : String) (outs : List (String × String × JVal))
    (row : PyDict) : Except PyErr PyDict :=
  if hasKey row src then do
    let v := getKey row src
    let row ← outs.foldlM (fun r o => do
      let x ← pyGet v o.2.1 o.2.2
      pure (setKey r o.1 x)) row
    pure (delKey row src)
  else pure row

/-- Run a sequence of `flattenStep` blocks, one per nested source key, in
source order. -/
def runSteps (steps : List (String × List (String × String × JVal)))
    (row : PyDict) : Except PyErr PyDict :=
  steps.foldlM (fun r s => flattenStep s.1 s.2 r) row

/-- The four blocks of `ShopsStream.post_process` (streams.py lines
18-56). -/
def shopsSteps : List (String × List (String × String × JVal)) :=
  [("type", [("type_tilroyId", "tilroyId", JVal.null),
             ("type_code", "code", JVal.null)]),
   ("subType", [("subType_tilroyId", "tilroyId", JVal.null),
                ("subType_code", "code", JVal.null)]),
   ("language", [("language_tilroyId", "tilroyId", JVal.null),
                 ("language_code", "code", JVal.null)]),
   ("country", [("country_tilroyId", "tilroyId", JVal.null),
                ("country_countryCode", "countryCode", JVal.null)])]

/-- `ShopsStream.post_process` (streams.py lines 18-56). -/
def ShopsStream.post_process (row : PyDict) : Except PyErr PyDict :=
  runSteps shopsSteps row

/-- The single block of `ProductsStream.post_process` (streams.py lines
89-107); `brand.get("descriptions", [])` defaults to an empty array. -/
def productsSteps : List (String × List (String × String × JVal)) :=
  [("brand", [("brand_code", "code", JVal.null),
              ("brand_descriptions", "descriptions", JVal.arr [])])]

/-- `ProductsStream.post_process` (streams.py lines 89-107). -/
def ProductsStream.post_process (row : PyDict) : Except PyErr PyDict :=
  runSteps productsSteps row

/-- The supplier/warehouse/currency blocks of
`PurchaseOrdersStream.post_process` (streams.py lines 205-224). -/
def poMainSteps : List (String × List (String × String × JVal)) :=
  [("supplier", [("supplier_tilroyId", "tilroyId", JVal.null),
                 ("supplier_code", "code", JVal.null),
                 ("supplier_name", "name", JVal.null)]),
   ("warehouse", [("warehouse_number", "number", JVal.null),
                  ("warehouse_name", "name", JVal.null)]),
   ("currency", [("currency_code", "code", JVal.null)])]

/-- The `tenantCurrency` sub-block of the `prices` block of
`PurchaseOrdersStream.post_process` (streams.py lines 229-234); the
`prices` block probes each sub-currency with `in`, indexes it and
extracts four price fields, and `del row["prices"]` runs whenever the
`prices` key was present. -/
def poPricesTenant (prices : JVal) (row : PyDict) : Except PyErr PyDict := do
  let tenant ← pyIndex prices "tenantCurrency"
  let x1 ← pyGet tenant "standardVatExc" JVal.null
  let x2 ← pyGet tenant "standardVatInc" JVal.null
  let x3 ← pyGet tenant "vatExc" JVal.null
  let x4 ← pyGet tenant "vatInc" JVal.null
  pure (setKey (setKey (setKey (setKey row
    "prices_tenantCurrency_standardVatExc" x1)
    "prices_tenantCurrency_standardVatInc" x2)
    "prices_tenantCurrency_vatExc" x3)
    "prices_tenantCurrency_vatInc" x4)

/-- The `supplierCurrency` sub-block of the `prices` block (streams.py
lines 235-240). -/
def poPricesSupplier (prices : JVal) (row : PyDict) : Except PyErr PyDict := do
  let sup ← pyIndex prices "supplierCurrency"
  let y1 ← pyGet sup "standardVatExc" JVal.null
  let y2 ← pyGet sup "standardVatInc" JVal.null
  let y3 ← pyGet sup "vatExc" JVal.null
  let y4 ← pyGet sup "vatInc" JVal.null
  pure (setKey (setKey (setKey (setKey row
    "prices_supplierCurrency_standardVatExc" y1)
    "prices_supplierCurrency_standardVatInc" y2)
    "prices_supplierCurrency_vatExc" y3)
    "prices_supplierCurrency_vatInc" y4)

/-- Body of the `prices` block (streams.py lines 226-241). -/
def poPricesStep (row : PyDict) : Except PyErr PyDict :=
  if hasKey row "prices" then
    pyContains (getKey row "prices") "tenantCurrency" >>= fun b1 =>
    (if b1 then poPricesTenant (getKey row "prices") row else pure row) >>= fun row1 =>
    pyContains (getKey row "prices") "supplierCurrency" >>= fun b2 =>
    (if b2 then poPricesSupplier (getKey row "prices") row1 else pure row1) >>= fun row2 =>
    pure (delKey row2 "prices")
  else pure row

/-- The `created`/`modified` blocks of `PurchaseOrdersStream.post_process`
(streams.py lines 243-257): `if src in row and "user" in row[src]:`
extract the user login/sourceId and the timestamp, then delete `src`.
When the guard fails, the row is returned unchanged. -/
def poUserStep (src tLogin tSrc tTs : String) (row : PyDict) :
    Except PyErr PyDict :=
  if hasKey row src then do
    let b ← pyContains (getKey row src) "user"
    if b then do
      let u ← pyIndex (getKey row src) "user"
      let xl ← pyGet u "login" JVal.null
      let xs ← pyGet u "sourceId" JVal.null
      let xt ← pyGet (getKey row src) "timestamp" JVal.null
      pure (delKey (setKey (setKey (setKey row tLogin xl) tSrc xs) tTs xt) src)
    else pure row
  else pure row

/-- `PurchaseOrdersStream.post_process` (streams.py lines 195-259). -/
def PurchaseOrdersStream.post_process (row : PyDict) : Except PyErr PyDict := do
  let row ← runSteps poMainSteps row
  let row ← poPricesStep row
  let row ← poUserStep "created" "created_user_login" "created_user_sourceId"
    "created_timestamp" row
  let row ← poUserStep "modified" "modified_user_login" "modified_user_sourceId"
    "modified_timestamp" row
  pure row

/-- The five blocks of `StockChangesStream.post_process` (streams.py lines
336-380). -/
def stockChangesSteps : List (String × List (String × String × JVal)) :=
  [("shop", [("shop_number", "number", JVal.null),
             ("shop_sourceId", "sourceId", JVal.null)]),
   ("product", [("product_code", "code", JVal.null),
                ("product_sourceId", "sourceId", JVal.null)]),
   ("colour", [("colour_code", "code", JVal.null),
               ("colour_sourceId", "sourceId", JVal.null)]),
   ("size", [("size_code", "code", JVal.null)]),
   ("sku", [("sku_barcode", "barcode", JVal.null),
            ("sku_sourceId", "sourceId", JVal.null)])]

/-- `StockChangesStream.post_process` (streams.py lines 336-380). -/
def StockChangesStream.post_process (row : PyDict) : Except PyErr PyDict :=
  runSteps stockChangesSteps row

/-- The five blocks of `SalesStream.post_process` (streams.py lines
447-510). -/
def salesSteps : List (String × List (String × String × JVal)) :=
  [("customer", [("customer_idTilroy", "idTilroy", JVal.null),
                 ("customer_idSource", "idSource", JVal.null)]),
   ("vatTypeCalculation",
     [("vatTypeCalculation_UseCalculation", "UseCalculation", JVal.null),
      ("vatTypeCalculation_IdVatType", "IdVatType", JVal.null),
      ("vatTypeCalculation_VatTypeCode", "VatTypeCode", JVal.null),
      ("vatTypeCalculation_VatExempt", "VatExempt", JVal.null),
      ("vatTypeCalculation_IsVatIncl", "IsVatIncl", JVal.null),
      ("vatTypeCalculation_IsIntraComm", "IsIntraComm", JVal.null),
      ("vatTypeCalculation_IsExport", "IsExport", JVal.null),
      ("vatTypeCalculation_IsCustom", "IsCustom", JVal.null),
      ("vatTypeCalculation_IdCountryFrom", "IdCountryFrom", JVal.null),
      ("vatTypeCalculation_CountryFromIsIntrastat", "CountryFromIsIntrastat", JVal.null),
      ("vatTypeCalculation_IdCountryTo", "IdCountryTo", JVal.null),
      ("vatTypeCalculation_CountryToIsIntrastat", "CountryToIsIntrastat", JVal.null),
      ("vatTypeCalculation_Invoice", "Invoice", JVal.null),
      ("vatTypeCalculation_VatNumber", "VatNumber", JVal.null),
      ("vatTypeCalculation_IdCustomer", "IdCustomer", JVal.null)]),
   ("shop", [("shop_idTilroy", "idTilroy", JVal.null),
             ("shop_idSource", "idSource", JVal.null),
             ("shop_number", "number", JVal.null),
             ("shop_name", "name", JVal.null),
             ("shop_country", "country", JVal.null)]),
   ("till", [("till_idTilroy", "idTilroy", JVal.null),
             ("till_number", "number", JVal.null),
             ("till_idSource", "idSource", JVal.null)]),
   ("legalEntity", [("legalEntity_idTilroy", "idTilroy", JVal.null),
                    ("legalEntity_code", "code", JVal.null),
                    ("legalEntity_name", "name", JVal.null),
                    ("legalEntity_vatNr", "vatNr", JVal.null)])]

/-- `SalesStream.post_process` (streams.py lines 447-510). -/
def SalesStream.post_process (row : PyDict) : Except PyErr PyDict :=
  runSteps salesSteps row

/-- A calendar date, the model of the date part of a Python `datetime`. -/
structure Date where
  year : Nat
  month : Nat
  day : Nat

/-- Gregorian leap-year rule, as used by Python's `datetime`. -/
def isLeapYear (y : Nat) : Bool :=
  (y % 4 == 0 && y % 100 != 0) || y % 400 == 0

/-- Number of days of month `m` of year `y` in the Gregorian calendar. -/
def daysInMonth (y m : Nat) : Nat :=
  if m == 2 then (if isLeapYear y then 29 else 28)
  else if m == 4 || m == 6 || m == 9 || m == 11 then 30
  else 31

/-- The date part of Python `dt - timedelta(days=1)`: one calendar day
earlier, rolling over month and year boundaries. -/
def Date.minusOneDay (d : Date) : Date :=
  if d.day > 1 then ⟨d.year, d.month, d.day - 1⟩
  else if d.month > 1 then ⟨d.year, d.month - 1, daysInMonth d.year (d.month - 1)⟩
  else ⟨d.year - 1, 12, 31⟩

/-- Zero-pad a number to two digits, as `strftime("%m")`/`%d` do. -/
def pad2 (n : Nat) : String :=
  if n < 10 then "0" ++ toString n else toString n

/-- Zero-pad a year to four digits, as `strftime("%Y")` does. -/
def pad4 (n : Nat) : String :=
  if n < 10 then "000" ++ toString n
  else if n < 100 then "00" ++ toString n
  else if n < 1000 then "0" ++ toString n
  else toString n

/-- Python `dt.strftime("%Y-%m-%d")`. -/
def Date.fmt (d : Date) : String :=
  pad4 d.year ++ "-" ++ pad2 d.month ++ "-" ++ pad2 d.day

/-- Split a character list at every occurrence of `sep`. -/
def splitChars (sep : Char) : List Char → List (List Char)
  | [] => [[]]
  | c :: rest =>
    let r := splitChars sep rest
    if c == sep then [] :: r
    else
      match r with
      | [] => [[c]]
      | g :: gs => (c :: g) :: gs

/-- Decimal value of a non-empty all-digit character list. -/
def digitsVal (cs : List Char) : Option Nat :=
  if cs.isEmpty then none
  else cs.foldl (fun acc c =>
    match acc with
    | none => none
    | some n => if c.isDigit then some (n * 10 + (c.toNat - 48)) else none)
    (some 0)

/-- Python `datetime.strptime(s, "%Y-%m-%d")`, modelling the standard
library: three dash-separated decimal fields forming a valid calendar
date; anything else raises `ValueError`, modelled as `none`. -/
def parseDate (s : String) : Option Date :=
  match splitChars '-' s.toList with
  | [ys, ms, ds] =>
    match digitsVal ys, digitsVal ms, digitsVal ds with
    | some y, some m, some d =>
      if 1 ≤ m && m ≤ 12 && 1 ≤ d && d ≤ daysInMonth y m then some ⟨y, m, d⟩
      else none
    | _, _, _ => none
  | _ => none

/-- `SalesStream.get_url_params` (streams.py lines 413-445), with the
framework collaborators made explicit: `bookmark` is the value of
`get_starting_time`, `configStartDate` the configured `start_date`, and
`today` the date of `datetime.now()`.  With no bookmark the configured
start date is parsed (a failure of `strptime` is `none`); with a
bookmark one day is subtracted; `dateTo` is always today. -/
def SalesStream.get_url_params (bookmark : Option Date)
    (configStartDate : String) (today : Date) :
    Option (List (String × String)) :=
  match bookmark with
  | none =>
    match parseDate configStartDate with
    | some d => some [("dateFrom", d.fmt), ("dateTo", today.fmt)]
    | none => none
  | some bm => some [("dateFrom", bm.minusOneDay.fmt), ("dateTo", today.fmt)]

/-- The per-stream constants an entity stream declares: its name, endpoint
path and page size (streams.py class bodies). -/
structure StreamDef where
  name : String
  path : String
  default_count : Nat

/-- `ShopsStream` constants (streams.py lines 9-16). -/
def shopsStreamDef : StreamDef :=
  ⟨"shops", "/shopapi/production/shops", TilroyStream.default_count⟩

/-- `ProductsStream` constants (streams.py lines 79-87): `default_count`
is overridden to 1000. -/
def productsStreamDef : StreamDef :=
  ⟨"products", "/product-bulk/production/products", 1000⟩

/-- `PurchaseOrdersStream` constants (streams.py lines 185-193). -/
def purchaseOrdersStreamDef : StreamDef :=
  ⟨"purchase_orders", "/purchaseapi/production/purchaseorders", 100⟩

/-- `StockChangesStream` constants (streams.py lines 327-334). -/
def stockChangesStreamDef : StreamDef :=
  ⟨"stock_changes", "/stockapi/production/export/stockdeltas", TilroyStream.default_count⟩

/-- `SalesStream` constants (streams.py lines 404-411). -/
def salesStreamDef : StreamDef :=
  ⟨"sales", "/saleapi/production/export/sales", TilroyStream.default_count⟩

/-- `request_records` as run by a concrete stream: the page size and path
are taken from the stream's constants, the base URL from the `api_url`
configuration. -/
def streamRequestRecords {α : Type} (apiUrl : String) (s : StreamDef)
    (pages : List (List α)) : List α × List String :=
  request_records apiUrl s.path s.default_count pages


/-! ### Helper lemmas about the dict model -/

/-- Every binding of `setKey r k v` is a binding of `r` or the new pair. -/
theorem mem_setKey {r : PyDict} {k : String} {v : JVal} {p : String × JVal}
    (h : p ∈ setKey r k v) : p ∈ r ∨ p = (k, v) := by
  unfold setKey at h
  split at h
  · rcases List.mem_map.mp h with ⟨q, hq, hfq⟩
    by_cases hk : q.1 == k
    · simp [hk] at hfq
      exact Or.inr hfq.symm
    · simp [hk] at hfq
      exact Or.inl (hfq ▸ hq)
  · rcases List.mem_append.mp h with h' | h'
    · exact Or.inl h'
    · simp at h'
      exact Or.inr h'

/-- Every binding accumulated by the `dict(items)` fold comes from the
accumulator or from the item list. -/
theorem mem_foldl_setKey (l : List (String × JVal)) (acc : PyDict)
    (p : String × JVal)
    (h : p ∈ l.foldl (fun d q => setKey d q.1 q.2) acc) : p ∈ acc ∨ p ∈ l := by
  induction l generalizing acc with
  | nil => exact Or.inl h
  | cons q rest ih =>
    rcases ih (setKey acc q.1 q.2) h with h' | h'
    · rcases mem_setKey h' with h'' | h''
      · exact Or.inl h''
      · exact Or.inr (by simp [h''])
    · exact Or.inr (List.mem_cons_of_mem _ h')

/-- Every binding of `pyDict items` is one of the items. -/
theorem mem_pyDict {items : List (String × JVal)} {p : String × JVal}
    (h : p ∈ pyDict items) : p ∈ items := by
  rcases mem_foldl_setKey items [] p h with h' | h'
  · cases h'
  · exact h'

/-- The keys of `setKey r k v`. -/
theorem setKey_keys (r : PyDict) (k : String) (v : JVal) :
    (setKey r k v).map Prod.fst
      = if r.any (fun p => p.1 == k) then r.map Prod.fst
        else r.map Prod.fst ++ [k] := by
  unfold setKey
  split
  · simp only [List.map_map]
    apply List.map_congr_left
    intro q _
    simp only [Function.comp]
    by_cases hk : q.1 = k
    · simp [hk]
    · simp [hk]
  · simp

/-- The `dict(items)` fold keeps the accumulator's keys duplicate-free. -/
theorem foldl_setKey_keys_nodup (l : List (String × JVal)) (acc : PyDict)
    (h : (acc.map Prod.fst).Nodup) :
    ((l.foldl (fun d q => setKey d q.1 q.2) acc).map Prod.fst).Nodup := by
  induction l generalizing acc with
  | nil => exact h
  | cons q rest ih =>
    refine ih _ ?_
    rw [setKey_keys]
    split
    · exact h
    · rename_i hany
      refine List.Nodup.append h (List.nodup_singleton _) ?_
      intro a ha hb
      simp only [List.mem_singleton] at hb
      subst hb
      apply hany
      rw [List.any_eq_true]
      rcases List.mem_map.mp ha with ⟨x, hx, hfx⟩
      exact ⟨x, hx, by simp [hfx]⟩

/-- The result of `dict(items)` has duplicate-free keys. -/
theorem pyDict_keys_nodup (items : List (String × JVal)) :
    ((pyDict items).map Prod.fst).Nodup :=
  foldl_setKey_keys_nodup items [] (by simp)

/-- Inserting items with fresh keys is plain appending. -/
theorem foldl_setKey_eq_append (l : List (String × JVal)) (acc : PyDict)
    (h : ((acc ++ l).map Prod.fst).Nodup) :
    l.foldl (fun d q => setKey d q.1 q.2) acc = acc ++ l := by
  induction l generalizing acc with
  | nil => simp
  | cons q rest ih =>
    have hmap : ((acc.map Prod.fst) ++ ((q :: rest).map Prod.fst)).Nodup := by
      rw [← List.map_append]
      exact h
    have hdisj := List.disjoint_of_nodup_append hmap
    have hq : acc.any (fun p => p.1 == q.1) = false := by
      rw [List.any_eq_false]
      intro p hp hpq
      have h1 : q.1 ∈ acc.map Prod.fst := by
        rw [← eq_of_beq hpq]
        exact List.mem_map_of_mem _ hp
      exact hdisj h1 (by simp)
    have hstep : setKey acc q.1 q.2 = acc ++ [q] := by
      unfold setKey
      rw [hq]
      simp
    have hrest : ((acc ++ [q] ++ rest).map Prod.fst).Nodup := by
      rw [List.append_assoc]
      simpa using h
    simp only [List.foldl_cons]
    rw [hstep, ih (acc ++ [q]) hrest]
    simp

/-- `dict(items)` is the identity on association lists whose keys are
already duplicate-free. -/
theorem pyDict_eq_self {items : List (String × JVal)}
    (h : (items.map Prod.fst).Nodup) : pyDict items = items :=
  foldl_setKey_eq_append items [] (by simpa using h)

/-! ### Helper lemmas about the flattener -/

/-- Every binding produced by the flattening loop carries a non-object
value and is a compound-named leaf binding of the input. -/
theorem flattenItems_mem (l : PyDict) (parentKey sep : String)
    (p : String × JVal) (h : p ∈ flattenItems l parentKey sep) :
    p.2.isObj = false ∧ p ∈ specLeafBindings l parentKey sep := by
  induction l, parentKey, sep using flattenItems.induct with
  | case1 pk sp =>
    simp only [flattenItems] at h
    cases h
  | case2 key value rest parentKey sep ih1 ih2 =>
    cases value
    case obj o =>
      simp only [flattenItems] at h
      rcases List.mem_append.mp h with h' | h'
      · have hm := ih1 (mem_pyDict h')
        refine ⟨hm.1, ?_⟩
        simp only [specLeafBindings]
        exact List.mem_append_left _ hm.2
      · have hm := ih2 h'
        refine ⟨hm.1, ?_⟩
        simp only [specLeafBindings]
        exact List.mem_append_right _ hm.2
    all_goals
      simp only [flattenItems] at h
      rcases List.mem_append.mp h with h' | h'
      · simp only [List.mem_singleton] at h'
        subst h'
        refine ⟨rfl, ?_⟩
        simp only [specLeafBindings]
        exact List.mem_append_left _ (List.mem_singleton_self _)
      · have hm := ih2 h'
        refine ⟨hm.1, ?_⟩
        simp only [specLeafBindings]
        exact List.mem_append_right _ hm.2

/-- Flattening an association list that already has no object values (with
an empty parent key) leaves it unchanged. -/
theorem flattenItems_eq_self (l : PyDict) (sep : String)
    (h : ∀ p ∈ l, p.2.isObj = false) : flattenItems l "" sep = l := by
  induction l with
  | nil => simp [flattenItems]
  | cons q rest ih =>
    obtain ⟨k, v⟩ := q
    have hv : v.isObj = false := h (k, v) (List.mem_cons_self _ _)
    have hrest : ∀ p ∈ rest, p.2.isObj = false := fun p hp =>
      h p (List.mem_cons_of_mem _ hp)
    cases v
    case obj o => simp [JVal.isObj] at hv
    all_goals
      simp only [flattenItems, newKey]
      rw [if_pos trivial, ih hrest]
      simp

/-- C6: for every input record, the output of `flatten_record` contains no
value that is itself a mapping (arrays, together with any mappings inside
them, are preserved verbatim), and every output binding is a leaf binding
of the input sitting under its compound dotted name `parent.child`. -/
theorem flatten_no_nested_maps (r : PyDict) (p : String × JVal)
    (h : p ∈ flatten_record r "" ".") :
    p.2.isObj = false ∧ p ∈ specLeafBindings r "" "." :=
  flattenItems_mem r "" "." p (mem_pyDict h)

/-- Witness for C6 at the record `{"a": {"b": 1}}` and its flattened
binding `("a.b", 1)`. -/
theorem flatten_no_nested_maps_witness :
    (("a.b", JVal.num 1) : String × JVal).2.isObj = false ∧
      ("a.b", JVal.num 1) ∈ specLeafBindings [("a", JVal.obj [("b", JVal.num 1)])] "" "." :=
  flatten_no_nested_maps [("a", JVal.obj [("b", JVal.num 1)])] ("a.b", JVal.num 1)
    (by simp [flatten_record, flattenItems, pyDict, setKey, newKey])

/-- C8: `flatten_record` is idempotent — re-flattening a flattened record
is a no-op. -/
theorem flatten_idempotent (r : PyDict) :
    flatten_record (flatten_record r "" ".") "" "." = flatten_record r "" "." := by
  have hno : ∀ p ∈ flatten_record r "" ".", p.2.isObj = false := fun p hp =>
    (flattenItems_mem r "" "." p (mem_pyDict hp)).1
  show pyDict (flattenItems (flatten_record r "" ".") "" ".") = flatten_record r "" "."
  rw [flattenItems_eq_self _ _ hno]
  exact pyDict_eq_self (pyDict_keys_nodup _)

/-- C1: with mocked page responses of lengths `[N, N, N, k]` (for
`0 < k < N`, `N` the page size) `request_records` yields `3N + k` records
over exactly four sequential requests for pages 1..4; with lengths
`[N, N, 0]` it yields `2N` records over exactly three requests. -/
theorem pagination_termination {α : Type} (urlBase path : String) (N k : Nat)
    (p1 p2 p3 p4 q1 q2 : List α)
    (hk : 0 < k) (hkN : k < N)
    (h1 : p1.length = N) (h2 : p2.length = N) (h3 : p3.length = N)
    (h4 : p4.length = k) (hq1 : q1.length = N) (hq2 : q2.length = N) :
    (request_records urlBase path N [p1, p2, p3, p4]).1.length = 3 * N + k ∧
    (request_records urlBase path N [p1, p2, p3, p4]).2
      = [requestUrl urlBase path N 1, requestUrl urlBase path N 2,
         requestUrl urlBase path N 3, requestUrl urlBase path N 4] ∧
    (request_records urlBase path N [q1, q2, ([] : List α)]).1.length = 2 * N ∧
    (request_records urlBase path N [q1, q2, ([] : List α)]).2
      = [requestUrl urlBase path N 1, requestUrl urlBase path N 2,
         requestUrl urlBase path N 3] := by
  have hN : 0 < N := lt_trans hk hkN
  refine ⟨?_, ?_, ?_, ?_⟩
  · simp [request_records, request_records_from, h1, h2, h3, h4,
      hN.ne', hk.ne', Nat.lt_irrefl, hkN]
    omega
  · simp [request_records, request_records_from, h1, h2, h3, h4,
      hN.ne', hk.ne', Nat.lt_irrefl, hkN]
  · simp [request_records, request_records_from, hq1, hq2,
      hN.ne', Nat.lt_irrefl]
    omega
  · simp [request_records, request_records_from, hq1, hq2,
      hN.ne', Nat.lt_irrefl]

/-- Witness for C1 with `N = 2`, `k = 1` and concrete pages. -/
theorem pagination_termination_witness :
    (request_records "u" "/p" 2 ([[0, 1], [2, 3], [4, 5], [6]] : List (List Nat))).1.length
      = 3 * 2 + 1 ∧
    (request_records "u" "/p" 2 ([[0, 1], [2, 3], [4, 5], [6]] : List (List Nat))).2
      = [requestUrl "u" "/p" 2 1, requestUrl "u" "/p" 2 2,
         requestUrl "u" "/p" 2 3, requestUrl "u" "/p" 2 4] ∧
    (request_records "u" "/p" 2 ([[0, 1], [2, 3], ([] : List Nat)] : List (List Nat))).1.length
      = 2 * 2 ∧
    (request_records "u" "/p" 2 ([[0, 1], [2, 3], ([] : List Nat)] : List (List Nat))).2
      = [requestUrl "u" "/p" 2 1, requestUrl "u" "/p" 2 2, requestUrl "u" "/p" 2 3] :=
  pagination_termination "u" "/p" 2 1 [0, 1] [2, 3] [4, 5] [6] [0, 1] [2, 3]
    (by decide) (by decide) rfl rfl rfl rfl rfl rfl

/-- C2 (divergence witness): a Sales page request is issued with only
`count` and `page` in its query string — the URL contains no `dateFrom`
parameter — even though `SalesStream.get_url_params` does compute
`dateFrom`/`dateTo` bounds (the pagination loop never consults it). -/
theorem sales_requests_lack_date_params :
    (request_records "https://api.example.com" salesStreamDef.path
        salesStreamDef.default_count ([[]] : List (List Nat))).2
      = ["https://api.example.com/saleapi/production/export/sales?count=100&page=1"] ∧
    subMatch "dateFrom".toList
      "https://api.example.com/saleapi/production/export/sales?count=100&page=1".toList
      = false ∧
    SalesStream.get_url_params (some ⟨2024, 5, 1⟩) "2024-01-01" ⟨2024, 5, 2⟩
      = some [("dateFrom", "2024-04-30"), ("dateTo", "2024-05-02")] :=
  ⟨rfl, rfl, rfl⟩

/-- C3: the Sales window computation — with no bookmark, `dateFrom` is the
parsed configured start date re-formatted as `YYYY-MM-DD`; with a
bookmark, `dateFrom` is the bookmark minus one calendar day; `dateTo` is
always the current date.  In particular bookmark `2024-05-01` gives
`dateFrom = "2024-04-30"`, and start date `"2024-01-01"` gives
`dateFrom = "2024-01-01"`. -/
theorem sales_window_params (cfg : String) (d today bm : Date)
    (h : parseDate cfg = some d) :
    SalesStream.get_url_params none cfg today
      = some [("dateFrom", d.fmt), ("dateTo", today.fmt)] ∧
    SalesStream.get_url_params (some bm) cfg today
      = some [("dateFrom", bm.minusOneDay.fmt), ("dateTo", today.fmt)] ∧
    SalesStream.get_url_params (some ⟨2024, 5, 1⟩) cfg ⟨2024, 6, 1⟩
      = some [("dateFrom", "2024-04-30"), ("dateTo", "2024-06-01")] ∧
    SalesStream.get_url_params none "2024-01-01" today
      = some [("dateFrom", "2024-01-01"), ("dateTo", today.fmt)] := by
  refine ⟨?_, rfl, rfl, rfl⟩
  unfold SalesStream.get_url_params
  rw [h]

/-- Witness for C3 at start date `"2024-01-01"`, bookmark `2024-05-01` and
current date `2025-10-12`. -/
theorem sales_window_params_witness :
    SalesStream.get_url_params none "2024-01-01" ⟨2025, 10, 12⟩
      = some [("dateFrom", "2024-01-01"), ("dateTo", "2025-10-12")] ∧
    SalesStream.get_url_params (some ⟨2024, 5, 1⟩) "2024-01-01" ⟨2025, 10, 12⟩
      = some [("dateFrom", "2024-04-30"), ("dateTo", "2025-10-12")] ∧
    SalesStream.get_url_params (some ⟨2024, 5, 1⟩) "2024-01-01" ⟨2024, 6, 1⟩
      = some [("dateFrom", "2024-04-30"), ("dateTo", "2024-06-01")] ∧
    SalesStream.get_url_params none "2024-01-01" ⟨2025, 10, 12⟩
      = some [("dateFrom", "2024-01-01"), ("dateTo", "2025-10-12")] :=
  sales_window_params "2024-01-01" ⟨2024, 1, 1⟩ ⟨2025, 10, 12⟩ ⟨2024, 5, 1⟩ rfl

/-- C10: every stream requests a fixed per-stream page size — 1000 for
Products and 100 for the other four — and that same constant is both the
`count` query parameter and the short-page termination threshold. -/
theorem page_size_constants {α : Type} (apiUrl : String) (p : List α)
    (rest : List (List α)) (hp : 0 < p.length) :
    productsStreamDef.default_count = 1000 ∧
    shopsStreamDef.default_count = 100 ∧
    purchaseOrdersStreamDef.default_count = 100 ∧
    stockChangesStreamDef.default_count = 100 ∧
    salesStreamDef.default_count = 100 ∧
    (p.length < 100 →
      streamRequestRecords apiUrl shopsStreamDef (p :: rest)
        = (p, [requestUrl apiUrl "/shopapi/production/shops" 100 1])) ∧
    (p.length < 1000 →
      streamRequestRecords apiUrl productsStreamDef (p :: rest)
        = (p, [requestUrl apiUrl "/product-bulk/production/products" 1000 1])) ∧
    (p.length < 100 →
      streamRequestRecords apiUrl purchaseOrdersStreamDef (p :: rest)
        = (p, [requestUrl apiUrl "/purchaseapi/production/purchaseorders" 100 1])) ∧
    (p.length < 100 →
      streamRequestRecords apiUrl stockChangesStreamDef (p :: rest)
        = (p, [requestUrl apiUrl "/stockapi/production/export/stockdeltas" 100 1])) ∧
    (p.length < 100 →
      streamRequestRecords apiUrl salesStreamDef (p :: rest)
        = (p, [requestUrl apiUrl "/saleapi/production/export/sales" 100 1])) := by
  refine ⟨rfl, rfl, rfl, rfl, rfl, ?_, ?_, ?_, ?_, ?_⟩
  all_goals
    intro hlt
    simp [streamRequestRecords, request_records, request_records_from,
      shopsStreamDef, productsStreamDef, purchaseOrdersStreamDef,
      stockChangesStreamDef, salesStreamDef, TilroyStream.default_count,
      hp.ne', hlt]

/-- Witness for C10: a single short page of one record terminates each
stream's pagination after one request carrying its page-size constant. -/
theorem page_size_constants_witness :
    streamRequestRecords "u" shopsStreamDef ([[7]] : List (List Nat))
      = ([7], [requestUrl "u" "/shopapi/production/shops" 100 1]) ∧
    streamRequestRecords "u" productsStreamDef ([[7]] : List (List Nat))
      = ([7], [requestUrl "u" "/product-bulk/production/products" 1000 1]) ∧
    streamRequestRecords "u" purchaseOrdersStreamDef ([[7]] : List (List Nat))
      = ([7], [requestUrl "u" "/purchaseapi/production/purchaseorders" 100 1]) ∧
    streamRequestRecords "u" stockChangesStreamDef ([[7]] : List (List Nat))
      = ([7], [requestUrl "u" "/stockapi/production/export/stockdeltas" 100 1]) ∧
    streamRequestRecords "u" salesStreamDef ([[7]] : List (List Nat))
      = ([7], [requestUrl "u" "/saleapi/production/export/sales" 100 1]) := by
  have h := page_size_constants "u" ([7] : List Nat) [] (by decide)
  obtain ⟨-, -, -, -, -, b1, b2, b3, b4, b5⟩ := h
  exact ⟨b1 (by decide), b2 (by decide), b3 (by decide), b4 (by decide), b5 (by decide)⟩

/-- C4 (counterexample): no adapter drops a vendor error envelope — all
five `post_process` methods return the envelope `{"code": "X",
"message": "Y"}` unchanged as a record instead of `None`. -/
theorem error_envelope_not_dropped :
    ShopsStream.post_process [("code", JVal.str "X"), ("message", JVal.str "Y")]
      = .ok [("code", JVal.str "X"), ("message", JVal.str "Y")] ∧
    ProductsStream.post_process [("code", JVal.str "X"), ("message", JVal.str "Y")]
      = .ok [("code", JVal.str "X"), ("message", JVal.str "Y")] ∧
    PurchaseOrdersStream.post_process [("code", JVal.str "X"), ("message", JVal.str "Y")]
      = .ok [("code", JVal.str "X"), ("message", JVal.str "Y")] ∧
    StockChangesStream.post_process [("code", JVal.str "X"), ("message", JVal.str "Y")]
      = .ok [("code", JVal.str "X"), ("message", JVal.str "Y")] ∧
    SalesStream.post_process [("code", JVal.str "X"), ("message", JVal.str "Y")]
      = .ok [("code", JVal.str "X"), ("message", JVal.str "Y")] :=
  ⟨rfl, rfl, rfl, rfl, rfl⟩

/-- C4 (amended): applying any adapter's `post_process` to a vendor error
envelope returns the envelope itself as a record — the record is emitted
as data, never dropped. -/
theorem error_envelope_passes_through (x y : String) :
    ShopsStream.post_process [("code", JVal.str x), ("message", JVal.str y)]
      = .ok [("code", JVal.str x), ("message", JVal.str y)] ∧
    ProductsStream.post_process [("code", JVal.str x), ("message", JVal.str y)]
      = .ok [("code", JVal.str x), ("message", JVal.str y)] ∧
    PurchaseOrdersStream.post_process [("code", JVal.str x), ("message", JVal.str y)]
      = .ok [("code", JVal.str x), ("message", JVal.str y)] ∧
    StockChangesStream.post_process [("code", JVal.str x), ("message", JVal.str y)]
      = .ok [("code", JVal.str x), ("message", JVal.str y)] ∧
    SalesStream.post_process [("code", JVal.str x), ("message", JVal.str y)]
      = .ok [("code", JVal.str x), ("message", JVal.str y)] :=
  ⟨rfl, rfl, rfl, rfl, rfl⟩

/-- C5 (counterexample): `ShopsStream.post_process` does not equal its
manual remapping applied to the generically flattened record — the
adapter leaves `{"a": {"b": 1}}` untouched while the claimed composition
would produce `{"a.b": 1}`. -/
theorem adapters_skip_generic_flattener :
    ShopsStream.post_process [("a", JVal.obj [("b", JVal.num 1)])]
      ≠ ShopsStream.post_process
          (flatten_record [("a", JVal.obj [("b", JVal.num 1)])] "" ".") := by
  have h1 : ShopsStream.post_process [("a", JVal.obj [("b", JVal.num 1)])]
      = .ok [("a", JVal.obj [("b", JVal.num 1)])] := rfl
  have h2 : flatten_record [("a", JVal.obj [("b", JVal.num 1)])] "" "."
      = [("a.b", JVal.num 1)] := by
    simp [flatten_record, flattenItems, pyDict, setKey, newKey]
  have h3 : ShopsStream.post_process [("a.b", JVal.num 1)]
      = .ok [("a.b", JVal.num 1)] := rfl
  rw [h1, h2, h3]
  simp

/-- C5 (amended): only the base class's `post_process` applies the generic
flattener; every entity adapter overrides it and applies its manual
remapping directly to the raw record, leaving keys outside its named set
(nested objects included) untouched. -/
theorem flattener_only_in_base_post_process (v : JVal) (r : PyDict) :
    TilroyStream.post_process r = flatten_record r "" "." ∧
    ShopsStream.post_process [("a", v)] = .ok [("a", v)] ∧
    ProductsStream.post_process [("a", v)] = .ok [("a", v)] ∧
    PurchaseOrdersStream.post_process [("a", v)] = .ok [("a", v)] ∧
    StockChangesStream.post_process [("a", v)] = .ok [("a", v)] ∧
    SalesStream.post_process [("a", v)] = .ok [("a", v)] :=
  ⟨rfl, rfl, rfl, rfl, rfl, rfl⟩

/-! ### Helper lemmas for the adapter post-processing chains -/

/-- Inversion for a successful `Except` bind. -/
theorem except_bind_ok {α β : Type} {x : Except PyErr α} {g : α → Except PyErr β}
    {b : β} (h : (x >>= g) = .ok b) : ∃ a, x = .ok a ∧ g a = .ok b := by
  cases x with
  | error e => simp [Bind.bind, Except.bind] at h
  | ok a => exact ⟨a, rfl, by simpa [Bind.bind, Except.bind] using h⟩

/-- Inversion for a successful `Except` pure. -/
theorem except_pure_ok {α : Type} {a b : α}
    (h : (pure a : Except PyErr α) = .ok b) : a = b := by
  simpa [Pure.pure, Except.pure] using h

/-- Setting a different key does not change key presence. -/
theorem hasKey_setKey_ne (r : PyDict) (t k : String) (v : JVal) (h : ¬ t = k) :
    hasKey (setKey r t v) k = hasKey r k := by
  unfold hasKey setKey
  split
  · rw [List.any_map]
    congr 1
    funext p
    simp only [Function.comp]
    by_cases hp : p.1 = t
    · simp [hp, h]
    · simp [hp]
  · rw [List.any_append]
    simp [h]

/-- Setting a different key does not change a key's value. -/
theorem getKey_setKey_ne (r : PyDict) (t k : String) (v : JVal) (h : ¬ t = k) :
    getKey (setKey r t v) k = getKey r k := by
  unfold getKey setKey
  split
  · rw [List.find?_map]
    have hfg : ((fun q : String × JVal => q.1 == k) ∘
        (fun p : String × JVal => if p.1 == t then (t, v) else p))
        = fun q : String × JVal => q.1 == k := by
      funext q
      simp only [Function.comp]
      by_cases hq : q.1 = t
      · simp [hq, h, (fun hh : k = t => h hh.symm)]
      · simp [hq]
    rw [hfg]
    cases hfind : List.find? (fun q : String × JVal => q.1 == k) r with
    | none => simp
    | some a =>
      have hpa := List.find?_some hfind
      have ha1 : a.1 = k := eq_of_beq (by simpa using hpa)
      have hkt : ¬ k = t := fun hh => h hh.symm
      have hat : ¬ a.1 = t := fun hh => hkt (ha1 ▸ hh)
      simp [hat]
  · rw [List.find?_append]
    cases hfind : List.find? (fun q : String × JVal => q.1 == k) r with
    | none => simp [h]
    | some a => simp

/-- Deleting a key removes it. -/
theorem hasKey_delKey_self (r : PyDict) (k : String) :
    hasKey (delKey r k) k = false := by
  unfold hasKey delKey
  rw [List.any_eq_false]
  intro p hp
  have := (List.mem_filter.mp hp).2
  simp at this
  simp [this]

/-- Deleting a different key does not change key presence. -/
theorem hasKey_delKey_ne (r : PyDict) (t k : String) (h : ¬ t = k) :
    hasKey (delKey r t) k = hasKey r k := by
  unfold hasKey delKey
  induction r with
  | nil => rfl
  | cons q rest ih =>
    by_cases hq : q.1 = t
    · simp only [List.filter_cons]
      rw [if_neg (by simp [hq])]
      rw [ih]
      simp [hq, h]
    · simp only [List.filter_cons]
      rw [if_pos (by simp [hq])]
      simp only [List.any_cons]
      rw [ih]

/-- Deleting a different key does not change a key's value. -/
theorem getKey_delKey_ne (r : PyDict) (t k : String) (h : ¬ t = k) :
    getKey (delKey r t) k = getKey r k := by
  unfold getKey delKey
  induction r with
  | nil => rfl
  | cons q rest ih =>
    by_cases hq : q.1 = t
    · have hqk : (q.1 == k) = false := by simp [hq, h]
      simp only [List.filter_cons]
      rw [if_neg (by simp [hq])]
      rw [ih]
      simp only [List.find?_cons, hqk]
    · simp only [List.filter_cons]
      rw [if_pos (by simp [hq])]
      by_cases hqk : q.1 = k
      · have hqk' : (q.1 == k) = true := by simp [hqk]
        simp only [List.find?_cons, hqk']
      · have hqk' : (q.1 == k) = false := by simp [hqk]
        simp only [List.find?_cons, hqk']
        exact ih

/-- The target-setting fold of `flattenStep` touches only its target keys:
any other key's presence and value are preserved. -/
theorem foldlM_setKey_pres (outs : List (String × String × JVal)) (v : JVal)
    (row row2 : PyDict) (k : String)
    (h : outs.foldlM (fun r o => do
        let x ← pyGet v o.2.1 o.2.2
        pure (setKey r o.1 x)) row = .ok row2)
    (hk : ∀ o ∈ outs, ¬ o.1 = k) :
    hasKey row2 k = hasKey row k ∧ getKey row2 k = getKey row k := by
  induction outs generalizing row with
  | nil =>
    rw [List.foldlM_nil] at h
    have := except_pure_ok h
    subst this
    exact ⟨rfl, rfl⟩
  | cons o rest ih =>
    rw [List.foldlM_cons] at h
    obtain ⟨r1, h1, h2⟩ := except_bind_ok h
    obtain ⟨x, hx, h3⟩ := except_bind_ok h1
    have hr1 : setKey row o.1 x = r1 := except_pure_ok h3
    have ho1 : ¬ o.1 = k := hk o (List.mem_cons_self _ _)
    have hrest := ih r1 h2 (fun o' ho' => hk o' (List.mem_cons_of_mem _ ho'))
    subst hr1
    exact ⟨hrest.1.trans (hasKey_setKey_ne _ _ _ _ ho1),
           hrest.2.trans (getKey_setKey_ne _ _ _ _ ho1)⟩

/-- A successful `flattenStep` removes its source key. -/
theorem flattenStep_removes_src (src : String)
    (outs : List (String × String × JVal)) (row r' : PyDict)
    (h : flattenStep src outs row = .ok r') : hasKey r' src = false := by
  unfold flattenStep at h
  split at h
  · obtain ⟨row2, h1, h2⟩ := except_bind_ok h
    have hr : delKey row2 src = r' := except_pure_ok h2
    rw [← hr]
    exact hasKey_delKey_self _ _
  · rename_i hcond
    have hr : row = r' := except_pure_ok h
    rw [← hr]
    simpa using hcond

/-- A successful `flattenStep` preserves the presence and value of every
key other than its source and targets. -/
theorem flattenStep_pres (src : String) (outs : List (String × String × JVal))
    (row r' : PyDict) (k : String)
    (hsrc : ¬ src = k) (hk : ∀ o ∈ outs, ¬ o.1 = k)
    (h : flattenStep src outs row = .ok r') :
    hasKey r' k = hasKey row k ∧ getKey r' k = getKey row k := by
  unfold flattenStep at h
  split at h
  · obtain ⟨row2, h1, h2⟩ := except_bind_ok h
    have hr : delKey row2 src = r' := except_pure_ok h2
    have hp := foldlM_setKey_pres outs _ row row2 k h1 hk
    rw [← hr]
    rw [hasKey_delKey_ne _ _ _ hsrc, getKey_delKey_ne _ _ _ hsrc]
    exact hp
  · have hr : row = r' := except_pure_ok h
    rw [← hr]
    exact ⟨rfl, rfl⟩

/-- A successful `flattenStep` never introduces a key that is not one of
its targets. -/
theorem flattenStep_keeps_false (src : String)
    (outs : List (String × String × JVal)) (row r' : PyDict) (k : String)
    (hk : ∀ o ∈ outs, ¬ o.1 = k)
    (h : flattenStep src outs row = .ok r')
    (h0 : hasKey row k = false) : hasKey r' k = false := by
  by_cases hs : src = k
  · subst hs
    unfold flattenStep at h
    rw [h0] at h
    simp only [Bool.false_eq_true, if_false] at h
    have hr : row = r' := except_pure_ok h
    rw [← hr]
    exact h0
  · exact ((flattenStep_pres src outs row r' k hs hk h).1).trans h0

/-- `runSteps` preserves the presence and value of any key that is neither
a source nor a target of any step. -/
theorem runSteps_pres (steps : List (String × List (String × String × JVal)))
    (row r' : PyDict) (k : String)
    (hk : ∀ s ∈ steps, ¬ s.1 = k ∧ ∀ o ∈ s.2, ¬ o.1 = k)
    (h : runSteps steps row = .ok r') :
    hasKey r' k = hasKey row k ∧ getKey r' k = getKey row k := by
  induction steps generalizing row with
  | nil =>
    unfold runSteps at h
    rw [List.foldlM_nil] at h
    have := except_pure_ok h
    subst this
    exact ⟨rfl, rfl⟩
  | cons s rest ih =>
    unfold runSteps at h
    rw [List.foldlM_cons] at h
    obtain ⟨r1, h1, h2⟩ := except_bind_ok h
    have hs := hk s (List.mem_cons_self _ _)
    have hp1 := flattenStep_pres s.1 s.2 row r1 k hs.1 hs.2 h1
    have hp2 := ih r1 (fun s' hs' => hk s' (List.mem_cons_of_mem _ hs')) h2
    exact ⟨hp2.1.trans hp1.1, hp2.2.trans hp1.2⟩

/-- `runSteps` never introduces a key that is not one of its steps'
targets. -/
theorem runSteps_keeps_false (steps : List (String × List (String × String × JVal)))
    (row r' : PyDict) (k : String)
    (hk : ∀ s ∈ steps, ∀ o ∈ s.2, ¬ o.1 = k)
    (h : runSteps steps row = .ok r')
    (h0 : hasKey row k = false) : hasKey r' k = false := by
  induction steps generalizing row with
  | nil =>
    unfold runSteps at h
    rw [List.foldlM_nil] at h
    have := except_pure_ok h
    subst this
    exact h0
  | cons s rest ih =>
    unfold runSteps at h
    rw [List.foldlM_cons] at h
    obtain ⟨r1, h1, h2⟩ := except_bind_ok h
    have hx : hasKey r1 k = false :=
      flattenStep_keeps_false s.1 s.2 row r1 k (hk s (List.mem_cons_self _ _)) h1 h0
    exact ih r1 (fun s' hs' => hk s' (List.mem_cons_of_mem _ hs')) h2 hx

/-- After a successful `runSteps` whose step sources include `k` and whose
targets never mention `k`, the key `k` is gone. -/
theorem runSteps_removes (steps : List (String × List (String × String × JVal)))
    (row r' : PyDict) (k : String)
    (hmem : k ∈ steps.map Prod.fst)
    (htar : ∀ s ∈ steps, ∀ o ∈ s.2, ¬ o.1 = k)
    (h : runSteps steps row = .ok r') : hasKey r' k = false := by
  induction steps generalizing row with
  | nil => simp at hmem
  | cons s rest ih =>
    unfold runSteps at h
    rw [List.foldlM_cons] at h
    obtain ⟨r1, h1, h2⟩ := except_bind_ok h
    by_cases hs : s.1 = k
    · have hx : hasKey r1 k = false := hs ▸ flattenStep_removes_src s.1 s.2 row r1 h1
      exact runSteps_keeps_false rest r1 r' k
        (fun s' hs' => htar s' (List.mem_cons_of_mem _ hs')) h2 hx
    · have hmem' : k ∈ rest.map Prod.fst := by
        rcases List.mem_map.mp hmem with ⟨s', hs', hfs⟩
        rcases List.mem_cons.mp hs' with hh | hh
        · exact absurd (hh ▸ hfs) hs
        · exact hfs ▸ List.mem_map_of_mem _ hh
      exact ih r1 hmem' (fun s' hs' => htar s' (List.mem_cons_of_mem _ hs')) h2

/-- The `tenantCurrency` sub-block only sets its four target keys. -/
theorem poPricesTenant_pres (prices : JVal) (row row1 : PyDict) (k : String)
    (h : poPricesTenant prices row = .ok row1)
    (hk1 : ¬ "prices_tenantCurrency_standardVatExc" = k)
    (hk2 : ¬ "prices_tenantCurrency_standardVatInc" = k)
    (hk3 : ¬ "prices_tenantCurrency_vatExc" = k)
    (hk4 : ¬ "prices_tenantCurrency_vatInc" = k) :
    hasKey row1 k = hasKey row k ∧ getKey row1 k = getKey row k := by
  unfold poPricesTenant at h
  obtain ⟨tenant, ht, h⟩ := except_bind_ok h
  obtain ⟨x1, hx1, h⟩ := except_bind_ok h
  obtain ⟨x2, hx2, h⟩ := except_bind_ok h
  obtain ⟨x3, hx3, h⟩ := except_bind_ok h
  obtain ⟨x4, hx4, h⟩ := except_bind_ok h
  have hr := except_pure_ok h
  rw [← hr]
  constructor
  · rw [hasKey_setKey_ne _ _ _ _ hk4, hasKey_setKey_ne _ _ _ _ hk3,
      hasKey_setKey_ne _ _ _ _ hk2, hasKey_setKey_ne _ _ _ _ hk1]
  · rw [getKey_setKey_ne _ _ _ _ hk4, getKey_setKey_ne _ _ _ _ hk3,
      getKey_setKey_ne _ _ _ _ hk2, getKey_setKey_ne _ _ _ _ hk1]

/-- The `supplierCurrency` sub-block only sets its four target keys. -/
theorem poPricesSupplier_pres (prices : JVal) (row row1 : PyDict) (k : String)
    (h : poPricesSupplier prices row = .ok row1)
    (hk1 : ¬ "prices_supplierCurrency_standardVatExc" = k)
    (hk2 : ¬ "prices_supplierCurrency_standardVatInc" = k)
    (hk3 : ¬ "prices_supplierCurrency_vatExc" = k)
    (hk4 : ¬ "prices_supplierCurrency_vatInc" = k) :
    hasKey row1 k = hasKey row k ∧ getKey row1 k = getKey row k := by
  unfold poPricesSupplier at h
  obtain ⟨sup, ht, h⟩ := except_bind_ok h
  obtain ⟨y1, hy1, h⟩ := except_bind_ok h
  obtain ⟨y2, hy2, h⟩ := except_bind_ok h
  obtain ⟨y3, hy3, h⟩ := except_bind_ok h
  obtain ⟨y4, hy4, h⟩ := except_bind_ok h
  have hr := except_pure_ok h
  rw [← hr]
  constructor
  · rw [hasKey_setKey_ne _ _ _ _ hk4, hasKey_setKey_ne _ _ _ _ hk3,
      hasKey_setKey_ne _ _ _ _ hk2, hasKey_setKey_ne _ _ _ _ hk1]
  · rw [getKey_setKey_ne _ _ _ _ hk4, getKey_setKey_ne _ _ _ _ hk3,
      getKey_setKey_ne _ _ _ _ hk2, getKey_setKey_ne _ _ _ _ hk1]

/-- A successful `prices` block always deletes the `prices` key. -/
theorem poPricesStep_removes (row r' : PyDict)
    (h : poPricesStep row = .ok r') : hasKey r' "prices" = false := by
  unfold poPricesStep at h
  split at h
  · obtain ⟨b1, hb1, h⟩ := except_bind_ok h
    obtain ⟨row1, hrow1, h⟩ := except_bind_ok h
    obtain ⟨b2, hb2, h⟩ := except_bind_ok h
    obtain ⟨row2, hrow2, h⟩ := except_bind_ok h
    have hr := except_pure_ok h
    rw [← hr]
    exact hasKey_delKey_self _ _
  · rename_i hcond
    have hr := except_pure_ok h
    rw [← hr]
    simpa using hcond

/-- A successful `prices` block preserves every key other than `prices`
and its eight price targets. -/
theorem poPricesStep_pres (row r' : PyDict) (k : String)
    (hp : ¬ "prices" = k)
    (ht1 : ¬ "prices_tenantCurrency_standardVatExc" = k)
    (ht2 : ¬ "prices_tenantCurrency_standardVatInc" = k)
    (ht3 : ¬ "prices_tenantCurrency_vatExc" = k)
    (ht4 : ¬ "prices_tenantCurrency_vatInc" = k)
    (hs1 : ¬ "prices_supplierCurrency_standardVatExc" = k)
    (hs2 : ¬ "prices_supplierCurrency_standardVatInc" = k)
    (hs3 : ¬ "prices_supplierCurrency_vatExc" = k)
    (hs4 : ¬ "prices_supplierCurrency_vatInc" = k)
    (h : poPricesStep row = .ok r') :
    hasKey r' k = hasKey row k ∧ getKey r' k = getKey row k := by
  unfold poPricesStep at h
  split at h
  · obtain ⟨b1, hb1, h⟩ := except_bind_ok h
    obtain ⟨row1, hrow1, h⟩ := except_bind_ok h
    obtain ⟨b2, hb2, h⟩ := except_bind_ok h
    obtain ⟨row2, hrow2, h⟩ := except_bind_ok h
    have hr := except_pure_ok h
    have hp1 : hasKey row1 k = hasKey row k ∧ getKey row1 k = getKey row k := by
      cases b1 with
      | true => exact poPricesTenant_pres _ _ _ _ hrow1 ht1 ht2 ht3 ht4
      | false =>
        have := except_pure_ok hrow1
        rw [← this]
        exact ⟨rfl, rfl⟩
    have hp2 : hasKey row2 k = hasKey row1 k ∧ getKey row2 k = getKey row1 k := by
      cases b2 with
      | true => exact poPricesSupplier_pres _ _ _ _ hrow2 hs1 hs2 hs3 hs4
      | false =>
        have := except_pure_ok hrow2
        rw [← this]
        exact ⟨rfl, rfl⟩
    rw [← hr]
    rw [hasKey_delKey_ne _ _ _ hp, getKey_delKey_ne _ _ _ hp]
    exact ⟨hp2.1.trans hp1.1, hp2.2.trans hp1.2⟩
  · have hr := except_pure_ok h
    rw [← hr]
    exact ⟨rfl, rfl⟩

/-- The `prices` block never introduces a key that is not one of its
targets. -/
theorem poPricesStep_keeps_false (row r' : PyDict) (k : String)
    (ht1 : ¬ "prices_tenantCurrency_standardVatExc" = k)
    (ht2 : ¬ "prices_tenantCurrency_standardVatInc" = k)
    (ht3 : ¬ "prices_tenantCurrency_vatExc" = k)
    (ht4 : ¬ "prices_tenantCurrency_vatInc" = k)
    (hs1 : ¬ "prices_supplierCurrency_standardVatExc" = k)
    (hs2 : ¬ "prices_supplierCurrency_standardVatInc" = k)
    (hs3 : ¬ "prices_supplierCurrency_vatExc" = k)
    (hs4 : ¬ "prices_supplierCurrency_vatInc" = k)
    (h : poPricesStep row = .ok r')
    (h0 : hasKey row k = false) : hasKey r' k = false := by
  by_cases hp : "prices" = k
  · subst hp
    exact poPricesStep_removes row r' h
  · exact ((poPricesStep_pres row r' k hp ht1 ht2 ht3 ht4 hs1 hs2 hs3 hs4 h).1).trans h0

/-- A successful `created`/`modified` block whose guard held (the key is
absent, or its value contains a `"user"` entry) leaves the row without
the source key. -/
theorem poUserStep_removes (src tLogin tSrc tTs : String) (row r' : PyDict)
    (hguard : hasKey row src = false ∨ pyContains (getKey row src) "user" = .ok true)
    (h : poUserStep src tLogin tSrc tTs row = .ok r') :
    hasKey r' src = false := by
  unfold poUserStep at h
  split at h
  · rename_i hcond
    obtain ⟨b, hb, h⟩ := except_bind_ok h
    rcases hguard with hg | hg
    · rw [hcond] at hg
      cases hg
    · rw [hg] at hb
      have hb' : true = b := by
        have := hb
        simp only [Except.ok.injEq] at this
        exact this
      subst hb'
      simp only [if_true] at h
      obtain ⟨u, hu, h⟩ := except_bind_ok h
      obtain ⟨xl, hxl, h⟩ := except_bind_ok h
      obtain ⟨xs, hxs, h⟩ := except_bind_ok h
      obtain ⟨xt, hxt, h⟩ := except_bind_ok h
      have hr := except_pure_ok h
      rw [← hr]
      exact hasKey_delKey_self _ _
  · rename_i hcond
    have hr := except_pure_ok h
    rw [← hr]
    simpa using hcond

/-- A successful `created`/`modified` block preserves every key other than
its source and its three targets. -/
theorem poUserStep_pres (src tLogin tSrc tTs : String) (row r' : PyDict)
    (k : String)
    (hsrc : ¬ src = k) (h1 : ¬ tLogin = k) (h2 : ¬ tSrc = k) (h3 : ¬ tTs = k)
    (h : poUserStep src tLogin tSrc tTs row = .ok r') :
    hasKey r' k = hasKey row k ∧ getKey r' k = getKey row k := by
  unfold poUserStep at h
  split at h
  · obtain ⟨b, hb, h⟩ := except_bind_ok h
    cases b with
    | true =>
      simp only [if_true] at h
      obtain ⟨u, hu, h⟩ := except_bind_ok h
      obtain ⟨xl, hxl, h⟩ := except_bind_ok h
      obtain ⟨xs, hxs, h⟩ := except_bind_ok h
      obtain ⟨xt, hxt, h⟩ := except_bind_ok h
      have hr := except_pure_ok h
      rw [← hr]
      rw [hasKey_delKey_ne _ _ _ hsrc, getKey_delKey_ne _ _ _ hsrc]
      constructor
      · rw [hasKey_setKey_ne _ _ _ _ h3, hasKey_setKey_ne _ _ _ _ h2,
          hasKey_setKey_ne _ _ _ _ h1]
      · rw [getKey_setKey_ne _ _ _ _ h3, getKey_setKey_ne _ _ _ _ h2,
          getKey_setKey_ne _ _ _ _ h1]
    | false =>
      rw [if_neg Bool.false_ne_true] at h
      have hr := except_pure_ok h
      rw [← hr]
      exact ⟨rfl, rfl⟩
  · have hr := except_pure_ok h
    rw [← hr]
    exact ⟨rfl, rfl⟩

/-- A `created`/`modified` block never introduces a key that is not one of
its targets. -/
theorem poUserStep_keeps_false (src tLogin tSrc tTs : String) (row r' : PyDict)
    (k : String)
    (h1 : ¬ tLogin = k) (h2 : ¬ tSrc = k) (h3 : ¬ tTs = k)
    (h : poUserStep src tLogin tSrc tTs row = .ok r')
    (h0 : hasKey row k = false) : hasKey r' k = false := by
  by_cases hs : src = k
  · subst hs
    unfold poUserStep at h
    rw [h0] at h
    simp only [Bool.false_eq_true, if_false] at h
    have hr := except_pure_ok h
    rw [← hr]
    exact h0
  · exact ((poUserStep_pres src tLogin tSrc tTs row r' k hs h1 h2 h3 h).1).trans h0

/-- C7 (counterexample): a `created` value without a `"user"` entry is not
removed — `PurchaseOrdersStream.post_process` returns the row with the
nested `created` source key still present. -/
theorem po_created_without_user_kept :
    PurchaseOrdersStream.post_process [("created", JVal.obj [("timestamp", JVal.str "t")])]
      = .ok [("created", JVal.obj [("timestamp", JVal.str "t")])] ∧
    hasKey [("created", JVal.obj [("timestamp", JVal.str "t")])] "created" = true :=
  ⟨rfl, rfl⟩

/-- C7 (amended): whenever `post_process` succeeds, each adapter's named
nested source keys are absent from the output — except PurchaseOrders'
`created` and `modified`, which are only removed when the guard holds
(the key is absent or its value contains a `"user"` entry). -/
theorem source_keys_removed :
    (∀ row r', ShopsStream.post_process row = .ok r' →
      hasKey r' "type" = false ∧ hasKey r' "subType" = false ∧
      hasKey r' "language" = false ∧ hasKey r' "country" = false) ∧
    (∀ row r', ProductsStream.post_process row = .ok r' →
      hasKey r' "brand" = false) ∧
    (∀ row r', StockChangesStream.post_process row = .ok r' →
      hasKey r' "shop" = false ∧ hasKey r' "product" = false ∧
      hasKey r' "colour" = false ∧ hasKey r' "size" = false ∧
      hasKey r' "sku" = false) ∧
    (∀ row r', SalesStream.post_process row = .ok r' →
      hasKey r' "customer" = false ∧ hasKey r' "vatTypeCalculation" = false ∧
      hasKey r' "shop" = false ∧ hasKey r' "till" = false ∧
      hasKey r' "legalEntity" = false) ∧
    (∀ row r', PurchaseOrdersStream.post_process row = .ok r' →
      hasKey r' "supplier" = false ∧ hasKey r' "warehouse" = false ∧
      hasKey r' "currency" = false ∧ hasKey r' "prices" = false ∧
      ((hasKey row "created" = false ∨
          pyContains (getKey row "created") "user" = .ok true) →
        hasKey r' "created" = false) ∧
      ((hasKey row "modified" = false ∨
          pyContains (getKey row "modified") "user" = .ok true) →
        hasKey r' "modified" = false)) := by
  refine ⟨?_, ?_, ?_, ?_, ?_⟩
  · intro row r' h
    exact ⟨runSteps_removes shopsSteps row r' "type" (by decide) (by decide) h,
      runSteps_removes shopsSteps row r' "subType" (by decide) (by decide) h,
      runSteps_removes shopsSteps row r' "language" (by decide) (by decide) h,
      runSteps_removes shopsSteps row r' "country" (by decide) (by decide) h⟩
  · intro row r' h
    exact runSteps_removes productsSteps row r' "brand" (by decide) (by decide) h
  · intro row r' h
    exact ⟨runSteps_removes stockChangesSteps row r' "shop" (by decide) (by decide) h,
      runSteps_removes stockChangesSteps row r' "product" (by decide) (by decide) h,
      runSteps_removes stockChangesSteps row r' "colour" (by decide) (by decide) h,
      runSteps_removes stockChangesSteps row r' "size" (by decide) (by decide) h,
      runSteps_removes stockChangesSteps row r' "sku" (by decide) (by decide) h⟩
  · intro row r' h
    exact ⟨runSteps_removes salesSteps row r' "customer" (by decide) (by decide) h,
      runSteps_removes salesSteps row r' "vatTypeCalculation" (by decide) (by decide) h,
      runSteps_removes salesSteps row r' "shop" (by decide) (by decide) h,
      runSteps_removes salesSteps row r' "till" (by decide) (by decide) h,
      runSteps_removes salesSteps row r' "legalEntity" (by decide) (by decide) h⟩
  · intro row r' h
    unfold PurchaseOrdersStream.post_process at h
    obtain ⟨r1, h1, h⟩ := except_bind_ok h
    obtain ⟨r2, h2, h⟩ := except_bind_ok h
    obtain ⟨r3, h3, h⟩ := except_bind_ok h
    obtain ⟨r4, h4, h⟩ := except_bind_ok h
    have hr := except_pure_ok h
    subst hr
    have s1 := runSteps_removes poMainSteps row r1 "supplier" (by decide) (by decide) h1
    have s2 := poPricesStep_keeps_false r1 r2 "supplier" (by decide) (by decide)
      (by decide) (by decide) (by decide) (by decide) (by decide) (by decide) h2 s1
    have s3 := poUserStep_keeps_false "created" "created_user_login"
      "created_user_sourceId" "created_timestamp" r2 r3 "supplier"
      (by decide) (by decide) (by decide) h3 s2
    have s4 := poUserStep_keeps_false "modified" "modified_user_login"
      "modified_user_sourceId" "modified_timestamp" r3 r4 "supplier"
      (by decide) (by decide) (by decide) h4 s3
    have w1 := runSteps_removes poMainSteps row r1 "warehouse" (by decide) (by decide) h1
    have w2 := poPricesStep_keeps_false r1 r2 "warehouse" (by decide) (by decide)
      (by decide) (by decide) (by decide) (by decide) (by decide) (by decide) h2 w1
    have w3 := poUserStep_keeps_false "created" "created_user_login"
      "created_user_sourceId" "created_timestamp" r2 r3 "warehouse"
      (by decide) (by decide) (by decide) h3 w2
    have w4 := poUserStep_keeps_false "modified" "modified_user_login"
      "modified_user_sourceId" "modified_timestamp" r3 r4 "warehouse"
      (by decide) (by decide) (by decide) h4 w3
    have c1 := runSteps_removes poMainSteps row r1 "currency" (by decide) (by decide) h1
    have c2 := poPricesStep_keeps_false r1 r2 "currency" (by decide) (by decide)
      (by decide) (by decide) (by decide) (by decide) (by decide) (by decide) h2 c1
    have c3 := poUserStep_keeps_false "created" "created_user_login"
      "created_user_sourceId" "created_timestamp" r2 r3 "currency"
      (by decide) (by decide) (by decide) h3 c2
    have c4 := poUserStep_keeps_false "modified" "modified_user_login"
      "modified_user_sourceId" "modified_timestamp" r3 r4 "currency"
      (by decide) (by decide) (by decide) h4 c3
    have p2 := poPricesStep_removes r1 r2 h2
    have p3 := poUserStep_keeps_false "created" "created_user_login"
      "created_user_sourceId" "created_timestamp" r2 r3 "prices"
      (by decide) (by decide) (by decide) h3 p2
    have p4 := poUserStep_keeps_false "modified" "modified_user_login"
      "modified_user_sourceId" "modified_timestamp" r3 r4 "prices"
      (by decide) (by decide) (by decide) h4 p3
    have cr1 := runSteps_pres poMainSteps row r1 "created" (by decide) h1
    have cr2 := poPricesStep_pres r1 r2 "created" (by decide) (by decide) (by decide)
      (by decide) (by decide) (by decide) (by decide) (by decide) (by decide) h2
    have m1 := runSteps_pres poMainSteps row r1 "modified" (by decide) h1
    have m2 := poPricesStep_pres r1 r2 "modified" (by decide) (by decide) (by decide)
      (by decide) (by decide) (by decide) (by decide) (by decide) (by decide) h2
    have m3 := poUserStep_pres "created" "created_user_login"
      "created_user_sourceId" "created_timestamp" r2 r3 "modified"
      (by decide) (by decide) (by decide) (by decide) h3
    refine ⟨s4, w4, c4, p4, ?_, ?_⟩
    · intro hguard
      have hguard2 : hasKey r2 "created" = false ∨
          pyContains (getKey r2 "created") "user" = .ok true := by
        rcases hguard with hg | hg
        · exact Or.inl (by rw [cr2.1, cr1.1]; exact hg)
        · exact Or.inr (by rw [cr2.2, cr1.2]; exact hg)
      have cc := poUserStep_removes "created" "created_user_login"
        "created_user_sourceId" "created_timestamp" r2 r3 hguard2 h3
      exact poUserStep_keeps_false "modified" "modified_user_login"
        "modified_user_sourceId" "modified_timestamp" r3 r4 "created"
        (by decide) (by decide) (by decide) h4 cc
    · intro hguard
      have hguard3 : hasKey r3 "modified" = false ∨
          pyContains (getKey r3 "modified") "user" = .ok true := by
        rcases hguard with hg | hg
        · exact Or.inl (by rw [m3.1, m2.1, m1.1]; exact hg)
        · exact Or.inr (by rw [m3.2, m2.2, m1.2]; exact hg)
      exact poUserStep_removes "modified" "modified_user_login"
        "modified_user_sourceId" "modified_timestamp" r3 r4 hguard3 h4

/-- Witness for the amended C7: concrete Shops and PurchaseOrders rows
whose processed outputs no longer contain `type` resp. `created`. -/
theorem source_keys_removed_witness :
    hasKey [("type_tilroyId", JVal.str "1"), ("type_code", JVal.null)] "type" = false ∧
    hasKey [("created_user_login", JVal.null), ("created_user_sourceId", JVal.null),
      ("created_timestamp", JVal.str "t")] "created" = false := by
  constructor
  · exact (source_keys_removed.1 [("type", JVal.obj [("tilroyId", JVal.str "1")])]
      [("type_tilroyId", JVal.str "1"), ("type_code", JVal.null)] rfl).1
  · exact (source_keys_removed.2.2.2.2
      [("created", JVal.obj [("user", JVal.obj []), ("timestamp", JVal.str "t")])]
      [("created_user_login", JVal.null), ("created_user_sourceId", JVal.null),
        ("created_timestamp", JVal.str "t")] rfl).2.2.2.2.1 (Or.inr rfl)


/-- C9 (counterexample): a non-mapping value under a named source key does
not always raise — PurchaseOrders' `created` bound to a string passes the
substring `in` test unharmed and the record is returned, not an error. -/
theorem po_created_string_no_error :
    PurchaseOrdersStream.post_process [("created", JVal.str "2024-01-01")]
      = .ok [("created", JVal.str "2024-01-01")] := rfl

/-- C9 (amended): a non-mapping value under any source key read with
`.get` (Shops' type/subType/language/country, Products' brand,
PurchaseOrders' supplier/warehouse/currency, StockChanges'
shop/product/colour/size/sku, Sales'
customer/vatTypeCalculation/shop/till/legalEntity) raises an unguarded
`AttributeError`; PurchaseOrders' `created`/`modified`/`prices` keys are
instead probed with `in`: a string `created`/`modified` not containing
`"user"` returns the record unchanged, a string `prices` not containing
a currency name is silently deleted, and a number under any of the three
raises `TypeError` rather than `AttributeError`. -/
theorem non_mapping_source_key_errors :
    (∀ v : JVal, v.isObj = false →
      ShopsStream.post_process [("type", v)] = .error .attributeError ∧
      ShopsStream.post_process [("subType", v)] = .error .attributeError ∧
      ShopsStream.post_process [("language", v)] = .error .attributeError ∧
      ShopsStream.post_process [("country", v)] = .error .attributeError ∧
      ProductsStream.post_process [("brand", v)] = .error .attributeError ∧
      PurchaseOrdersStream.post_process [("supplier", v)] = .error .attributeError ∧
      PurchaseOrdersStream.post_process [("warehouse", v)] = .error .attributeError ∧
      PurchaseOrdersStream.post_process [("currency", v)] = .error .attributeError ∧
      StockChangesStream.post_process [("shop", v)] = .error .attributeError ∧
      StockChangesStream.post_process [("product", v)] = .error .attributeError ∧
      StockChangesStream.post_process [("colour", v)] = .error .attributeError ∧
      StockChangesStream.post_process [("size", v)] = .error .attributeError ∧
      StockChangesStream.post_process [("sku", v)] = .error .attributeError ∧
      SalesStream.post_process [("customer", v)] = .error .attributeError ∧
      SalesStream.post_process [("vatTypeCalculation", v)] = .error .attributeError ∧
      SalesStream.post_process [("shop", v)] = .error .attributeError ∧
      SalesStream.post_process [("till", v)] = .error .attributeError ∧
      SalesStream.post_process [("legalEntity", v)] = .error .attributeError) ∧
    (∀ s : String, subMatch "user".toList s.toList = false →
      PurchaseOrdersStream.post_process [("created", JVal.str s)]
        = .ok [("created", JVal.str s)] ∧
      PurchaseOrdersStream.post_process [("modified", JVal.str s)]
        = .ok [("modified", JVal.str s)]) ∧
    (∀ s : String, subMatch "tenantCurrency".toList s.toList = false →
      subMatch "supplierCurrency".toList s.toList = false →
      PurchaseOrdersStream.post_process [("prices", JVal.str s)] = .ok []) ∧
    PurchaseOrdersStream.post_process [("created", JVal.num 5)] = .error .typeError ∧
    PurchaseOrdersStream.post_process [("modified", JVal.num 5)] = .error .typeError ∧
    PurchaseOrdersStream.post_process [("prices", JVal.num 5)] = .error .typeError := by
  refine ⟨?_, ?_, ?_, rfl, rfl, rfl⟩
  · intro v hv
    cases v
    case obj o => simp [JVal.isObj] at hv
    all_goals exact ⟨rfl, rfl, rfl, rfl, rfl, rfl, rfl, rfl, rfl, rfl, rfl, rfl,
      rfl, rfl, rfl, rfl, rfl, rfl⟩
  · intro s hs
    constructor
    · have hc : pyContains (JVal.str s) "user" = Except.ok false := by
        have hx : pyContains (JVal.str s) "user"
            = Except.ok (subMatch "user".toList s.toList) := rfl
        rw [hx, hs]
      show poUserStep "created" "created_user_login" "created_user_sourceId"
          "created_timestamp" [("created", JVal.str s)] >>= (fun r3 =>
          poUserStep "modified" "modified_user_login" "modified_user_sourceId"
            "modified_timestamp" r3 >>= fun r4 => pure r4)
        = Except.ok [("created", JVal.str s)]
      unfold poUserStep
      have hcond : hasKey [("created", JVal.str s)] "created" = true := rfl
      have hg : getKey [("created", JVal.str s)] "created" = JVal.str s := rfl
      rw [if_pos hcond, hg, hc]
      rfl
    · have hc : pyContains (JVal.str s) "user" = Except.ok false := by
        have hx : pyContains (JVal.str s) "user"
            = Except.ok (subMatch "user".toList s.toList) := rfl
        rw [hx, hs]
      show poUserStep "modified" "modified_user_login" "modified_user_sourceId"
          "modified_timestamp" [("modified", JVal.str s)] >>= (fun r4 => pure r4)
        = Except.ok [("modified", JVal.str s)]
      unfold poUserStep
      have hcond : hasKey [("modified", JVal.str s)] "modified" = true := rfl
      have hg : getKey [("modified", JVal.str s)] "modified" = JVal.str s := rfl
      rw [if_pos hcond, hg, hc]
      rfl
  · intro s hs1 hs2
    have hc1 : pyContains (JVal.str s) "tenantCurrency" = Except.ok false := by
      have hx : pyContains (JVal.str s) "tenantCurrency"
          = Except.ok (subMatch "tenantCurrency".toList s.toList) := rfl
      rw [hx, hs1]
    have hc2 : pyContains (JVal.str s) "supplierCurrency" = Except.ok false := by
      have hx : pyContains (JVal.str s) "supplierCurrency"
          = Except.ok (subMatch "supplierCurrency".toList s.toList) := rfl
      rw [hx, hs2]
    show poPricesStep [("prices", JVal.str s)] >>= (fun r2 =>
        poUserStep "created" "created_user_login" "created_user_sourceId"
          "created_timestamp" r2 >>= fun r3 =>
        poUserStep "modified" "modified_user_login" "modified_user_sourceId"
          "modified_timestamp" r3 >>= fun r4 => pure r4)
      = Except.ok []
    unfold poPricesStep
    have hcond : hasKey [("prices", JVal.str s)] "prices" = true := rfl
    have hg : getKey [("prices", JVal.str s)] "prices" = JVal.str s := rfl
    rw [if_pos hcond, hg, hc1, hc2]
    rfl

/-- Witness for the amended C9: a string value under each `.get`-read key
raises `AttributeError`, a string under PurchaseOrders'
`created`/`modified` is returned unchanged, and a string under `prices`
makes `post_process` return the record with `prices` deleted. -/
theorem non_mapping_source_key_errors_witness :
    (ShopsStream.post_process [("type", JVal.str "x")] = .error .attributeError ∧
     ShopsStream.post_process [("subType", JVal.str "x")] = .error .attributeError ∧
     ShopsStream.post_process [("language", JVal.str "x")] = .error .attributeError ∧
     ShopsStream.post_process [("country", JVal.str "x")] = .error .attributeError ∧
     ProductsStream.post_process [("brand", JVal.str "x")] = .error .attributeError ∧
     PurchaseOrdersStream.post_process [("supplier", JVal.str "x")] = .error .attributeError ∧
     PurchaseOrdersStream.post_process [("warehouse", JVal.str "x")] = .error .attributeError ∧
     PurchaseOrdersStream.post_process [("currency", JVal.str "x")] = .error .attributeError ∧
     StockChangesStream.post_process [("shop", JVal.str "x")] = .error .attributeError ∧
     StockChangesStream.post_process [("product", JVal.str "x")] = .error .attributeError ∧
     StockChangesStream.post_process [("colour", JVal.str "x")] = .error .attributeError ∧
     StockChangesStream.post_process [("size", JVal.str "x")] = .error .attributeError ∧
     StockChangesStream.post_process [("sku", JVal.str "x")] = .error .attributeError ∧
     SalesStream.post_process [("customer", JVal.str "x")] = .error .attributeError ∧
     SalesStream.post_process [("vatTypeCalculation", JVal.str "x")] = .error .attributeError ∧
     SalesStream.post_process [("shop", JVal.str "x")] = .error .attributeError ∧
     SalesStream.post_process [("till", JVal.str "x")] = .error .attributeError ∧
     SalesStream.post_process [("legalEntity", JVal.str "x")] = .error .attributeError) ∧
    (PurchaseOrdersStream.post_process [("created", JVal.str "2024")]
       = .ok [("created", JVal.str "2024")] ∧
     PurchaseOrdersStream.post_process [("modified", JVal.str "2024")]
       = .ok [("modified", JVal.str "2024")]) ∧
    PurchaseOrdersStream.post_process [("prices", JVal.str "abc")] = .ok [] :=
  ⟨non_mapping_source_key_errors.1 (JVal.str "x") rfl,
   non_mapping_source_key_errors.2.1 "2024" rfl,
   non_mapping_source_key_errors.2.2.1 "abc" rfl rfl⟩
